import Mathlib

/-!
Verification of the tool-calling orchestration loops of the mcp-course
repository.

Three loop implementations are embedded:

* `runChatLoop` / `run_chat` — `demos/05-local-agent-mcp/client_ollama_mcp.py`,
  function `run_chat`: a fuel-bounded loop (`max_iterations = 5` in the
  source; the fuel is kept as a parameter so the budget can be quantified)
  that asks an Ollama model for a response, scans it for a
  `<tool_call>...</tool_call>` block, dispatches the parsed tool call and
  feeds the result back, until the model answers without a tool call or the
  budget runs out.

* `getClaudeResponse` — `demos/02-study-case-anthropic-tools-resources-prompts-chat-app/chat_app.py`,
  method `MCPChatApp.get_claude_response`: one Anthropic call with tool
  declarations; if the response carries `tool_use` blocks, every block is
  dispatched through `execute_mcp_tool`, the results are appended as a user
  message, and one follow-up call without tool declarations produces the
  final answer.

* `chat_with_tools` — `demos/02-.../mcp_client_simple.py`,
  method `SimpleMCPClient.chat_with_tools`: the OpenAI analogue of the
  above, plus `chatCliIteration` for one iteration of
  `ChatCLI.chat_loop` (`chat_cli.py`), which passes a copy of its history
  to `chat_with_tools`.

External collaborators (the model backends, `json.loads`, `re.search`,
`session.call_tool`) are parameters of the embedding, gathered in
environment structures, exactly as the spec treats them (black boxes).
Python exceptions raised by a collaborator are modelled as `Except.error`;
a `try/except` block in the source corresponds to matching on that
`Except`.
-/

namespace MCPCourse

/-! ## Ollama client (`client_ollama_mcp.py`, `run_chat`) -/

/-- A chat message of the Ollama client: a Python dict
`{"role": ..., "content": ...}`. -/
structure OllamaMsg where
  role : String
  content : String
  deriving Repr, DecidableEq

/-- The result of `json.loads` on the payload of a `<tool_call>` block,
after the two `.get` extractions of the source:
`tool_name = tool_json.get("tool_name")` (absent key gives Python `None`,
hence `Option`) and `arguments = tool_json.get("arguments", {})`
(the JSON value is treated as an opaque payload). -/
structure ToolCallJson where
  tool_name : Option String
  arguments : String
  deriving Repr, DecidableEq

/-- Python `f"{tool_name}"` on the optional tool name: `None` prints as
`"None"`. Used to build the feedback message of `run_chat`. -/
def toolNameStr : Option String → String
  | some s => s
  | none => "None"

/-- The external collaborators of `run_chat`, as black boxes.

* `chat j ms` — the Ollama backend's response text
  (`response.message.content`) to the `j`-th call of the run, made with
  message history `ms`.  The call index lets a property quantify over
  response sequences; the loop itself never inspects anything else of the
  response.
* `search t` — `re.search(r"<tool_call>\s*(\{.*\})\s*</tool_call>", t, re.S)`,
  returning group 1 on a match.
* `jsonLoads p` — `json.loads(p)` followed by the `tool_name`/`arguments`
  extractions; `Except.error` is a raised `json.JSONDecodeError`.
* `callTool n a` — `await session.call_tool(n, a)` followed by
  `json.dumps([c.model_dump() for c in tool_result.content])`;
  `Except.error` is any raised exception. -/
structure OllamaEnv where
  chat : Nat → List OllamaMsg → String
  search : String → Option String
  jsonLoads : String → Except String ToolCallJson
  callTool : Option String → String → Except String String

/-- Which `return` statement of `run_chat` ended the run. The loop has
four exits: the no-tool-call return of the response text (`done`), the
`json.JSONDecodeError` handler (`parseError`), the generic exception
handler around tool execution (`execError`), and falling off the
`for` loop (`exhausted`). -/
inductive RunOutcome
  | done (text : String)
  | parseError (text err : String)
  | execError (text err : String)
  | exhausted
  deriving Repr, DecidableEq

/-- The string `run_chat` actually returns for each outcome, matching the
source's `return` expressions. -/
def outcomeString : RunOutcome → String
  | .done t => t
  | .parseError t e => t ++ "\n\n[Error parsing tool call: " ++ e ++ "]"
  | .execError t e => t ++ "\n\n[Error executing tool: " ++ e ++ "]"
  | .exhausted => "Maximum iterations reached."

/-- The user-role feedback message `run_chat` appends after a successful
tool dispatch. -/
def toolFeedbackMsg (toolName : Option String) (resultText : String) : OllamaMsg :=
  { role := "user"
    content := "Tool `" ++ toolNameStr toolName ++ "` returned: " ++ resultText ++
      ".\nContinue with the next tool if needed, or provide the final answer." }

/-- The `for _ in range(max_iterations)` loop of `run_chat`, embedded with
the remaining iteration count as fuel and the index of the next backend
call threaded for the response oracle.  Returns the outcome together with
the number of Model Backend calls performed. -/
def runChatLoop (env : OllamaEnv) : Nat → Nat → List OllamaMsg → RunOutcome × Nat
  | 0, _, _ => (.exhausted, 0)
  | fuel + 1, callIdx, messages =>
    let text := env.chat callIdx messages
    match env.search text with
    | none => (.done text, 1)
    | some jsonStr =>
      match env.jsonLoads jsonStr with
      | .error e => (.parseError text e, 1)
      | .ok tj =>
        match env.callTool tj.tool_name tj.arguments with
        | .error e => (.execError text e, 1)
        | .ok resultText =>
          let messages' := messages ++
            [{ role := "assistant", content := text }, toolFeedbackMsg tj.tool_name resultText]
          let rest := runChatLoop env fuel (callIdx + 1) messages'
          (rest.1, rest.2 + 1)

/-- `run_chat` of `client_ollama_mcp.py`: initial history is the system
prompt followed by the user query, and the source fixes
`max_iterations = 5`. -/
def run_chat (env : OllamaEnv) (systemPrompt query : String) : RunOutcome × Nat :=
  runChatLoop env 5 0 [{ role := "system", content := systemPrompt }, { role := "user", content := query }]

/-- A backend response text that `run_chat` treats as a tool-requesting
turn that completes: the regex matches, the payload parses, and the
dispatch returns normally.  (A response whose payload fails to parse or
whose dispatch raises ends the run through a distinct error exit; those
are the subject of the malformed-syntax property, not of turn
accounting.) -/
def ToolTurn (env : OllamaEnv) (t : String) : Prop :=
  ∃ p tj r, env.search t = some p ∧ env.jsonLoads p = .ok tj ∧
    env.callTool tj.tool_name tj.arguments = .ok r

/-- A backend response with no `<tool_call>` block: `run_chat` returns its
text as the final answer. -/
def TextTurn (env : OllamaEnv) (t : String) : Prop :=
  env.search t = none

theorem runChatLoop_budget (env : OllamaEnv) (K i : Nat) (msgs : List OllamaMsg)
    (hTool : ∀ j ms, ToolTurn env (env.chat j ms)) :
    (runChatLoop env K i msgs).1 = .exhausted ∧ (runChatLoop env K i msgs).2 = K := by
  induction K generalizing i msgs with
  | zero => exact ⟨rfl, rfl⟩
  | succ K ih =>
    obtain ⟨p, tj, r, h1, h2, h3⟩ := hTool i msgs
    have step := ih (i + 1)
      (msgs ++ [{ role := "assistant", content := env.chat i msgs },
        toolFeedbackMsg tj.tool_name r])
    simp only [runChatLoop, h1, h2, h3]
    exact ⟨step.1, by rw [step.2]⟩

/-- C1: if the Model Backend answers every call with a tool-requesting
response (the `<tool_call>` block matches, parses, and dispatches), then
the loop run with turn budget `K` performs at most `K` Model Backend calls
and terminates in the Exhausted state (the source's
`"Maximum iterations reached."` return), never looping indefinitely; in
particular `run_chat`, whose source fixes the budget at 5, makes exactly
5 calls and exhausts. -/
theorem ollama_budget_enforcement (env : OllamaEnv) (K i : Nat) (msgs : List OllamaMsg)
    (sp q : String)
    (hTool : ∀ j ms, ToolTurn env (env.chat j ms)) :
    (runChatLoop env K i msgs).2 ≤ K ∧ (runChatLoop env K i msgs).1 = .exhausted ∧
      run_chat env sp q = (.exhausted, 5) := by
  have h := runChatLoop_budget env K i msgs hTool
  have h5 := runChatLoop_budget env 5 0
    [{ role := "system", content := sp }, { role := "user", content := q }] hTool
  refine ⟨le_of_eq h.2, h.1, ?_⟩
  simp only [run_chat]
  exact Prod.ext h5.1 h5.2

/-- An environment whose backend always emits a tool call that parses and
dispatches; used to witness the budget-enforcement theorem. -/
def envAlwaysTool : OllamaEnv :=
  { chat := fun _ _ => "T"
    search := fun _ => some "P"
    jsonLoads := fun _ => .ok { tool_name := some "t", arguments := "a" }
    callTool := fun _ _ => .ok "r" }

theorem ollama_budget_enforcement_witness :
    (runChatLoop envAlwaysTool 3 0 []).2 ≤ 3 ∧
      (runChatLoop envAlwaysTool 3 0 []).1 = .exhausted ∧
      run_chat envAlwaysTool "s" "q" = (.exhausted, 5) :=
  ollama_budget_enforcement envAlwaysTool 3 0 [] "s" "q"
    (fun _ _ => ⟨"P", { tool_name := some "t", arguments := "a" }, "r", rfl, rfl, rfl⟩)

/-- C2: if the backend's responses to calls `i, …, i+N-1` are
tool-requesting turns and the response to call `i+N` carries no tool call,
and `N + 1` fits in the budget `K`, then the loop performs exactly `N + 1`
Model Backend calls and terminates in the Done state with the text of that
last response as the final answer. -/
theorem ollama_turn_accounting (env : OllamaEnv) (N K i : Nat) (msgs : List OllamaMsg)
    (hNK : N + 1 ≤ K)
    (hTool : ∀ j, j < N → ∀ ms, ToolTurn env (env.chat (i + j) ms))
    (hText : ∀ ms, TextTurn env (env.chat (i + N) ms)) :
    ∃ ms, runChatLoop env K i msgs = (.done (env.chat (i + N) ms), N + 1) := by
  induction N generalizing i msgs K with
  | zero =>
    obtain ⟨K, rfl⟩ : ∃ L, K = L + 1 := ⟨K - 1, by omega⟩
    refine ⟨msgs, ?_⟩
    have ht := hText msgs
    simp only [TextTurn, Nat.add_zero] at ht
    simp [runChatLoop, ht]
  | succ N ih =>
    obtain ⟨K, rfl⟩ : ∃ L, K = L + 1 := ⟨K - 1, by omega⟩
    obtain ⟨p, tj, r, h1, h2, h3⟩ := hTool 0 (Nat.succ_pos N) msgs
    simp only [Nat.add_zero] at h1
    have hTool' : ∀ j, j < N → ∀ ms, ToolTurn env (env.chat (i + 1 + j) ms) := by
      intro j hj ms
      have : i + 1 + j = i + (j + 1) := by omega
      rw [this]
      exact hTool (j + 1) (by omega) ms
    have hText' : ∀ ms, TextTurn env (env.chat (i + 1 + N) ms) := by
      intro ms
      have : i + 1 + N = i + (N + 1) := by omega
      rw [this]
      exact hText ms
    obtain ⟨ms, hms⟩ := ih K (i + 1)
      (msgs ++ [{ role := "assistant", content := env.chat i msgs },
        toolFeedbackMsg tj.tool_name r]) (by omega) hTool' hText'
    refine ⟨ms, ?_⟩
    have hidx : i + 1 + N = i + (N + 1) := by omega
    rw [hidx] at hms
    simp only [runChatLoop, h1, h2, h3, hms]

/-- An environment whose backend emits tool calls on the first two calls
and a plain answer on every later call; used to witness turn accounting
with `N = 2`. -/
def envTwoTools : OllamaEnv :=
  { chat := fun j _ => if j < 2 then "T" else "F"
    search := fun t => if t = "T" then some "P" else none
    jsonLoads := fun _ => .ok { tool_name := some "t", arguments := "a" }
    callTool := fun _ _ => .ok "r" }

theorem ollama_turn_accounting_witness :
    runChatLoop envTwoTools 5 0 [] = (.done "F", 3) := by
  obtain ⟨ms, h⟩ := ollama_turn_accounting envTwoTools 2 5 0 [] (by omega)
    (by
      intro j hj ms
      refine ⟨"P", { tool_name := some "t", arguments := "a" }, "r", ?_, rfl, rfl⟩
      simp [envTwoTools, hj])
    (by
      intro ms
      simp [TextTurn, envTwoTools])
  simpa [envTwoTools] using h

/-- Amended C7, Ollama side: a first response whose `<tool_call>` payload
fails `json.loads` ends the run after exactly one Model Backend call, in
the distinct parse-error outcome; the caller receives the model's text
with a parse-error annotation (the error is returned, not fed back to the
model, and nothing is raised). -/
theorem ollama_malformed_toolcall (env : OllamaEnv) (fuel i : Nat) (msgs : List OllamaMsg)
    (p e : String)
    (hfuel : 0 < fuel)
    (hMatch : env.search (env.chat i msgs) = some p)
    (hParse : env.jsonLoads p = .error e) :
    runChatLoop env fuel i msgs = (.parseError (env.chat i msgs) e, 1) ∧
      outcomeString (runChatLoop env fuel i msgs).1 =
        env.chat i msgs ++ "\n\n[Error parsing tool call: " ++ e ++ "]" := by
  obtain ⟨fuel, rfl⟩ : ∃ L, fuel = L + 1 := ⟨fuel - 1, by omega⟩
  have h : runChatLoop env (fuel + 1) i msgs = (.parseError (env.chat i msgs) e, 1) := by
    simp [runChatLoop, hMatch, hParse]
  exact ⟨h, by rw [h]; rfl⟩

/-- An environment whose backend emits a tool-call block whose payload is
not valid JSON; used to witness the malformed-tool-call behaviour. -/
def envBadJson : OllamaEnv :=
  { chat := fun _ _ => "T"
    search := fun _ => some "P"
    jsonLoads := fun _ => .error "boom"
    callTool := fun _ _ => .ok "r" }

theorem ollama_malformed_toolcall_witness :
    runChatLoop envBadJson 5 0 [] = (.parseError "T" "boom", 1) ∧
      outcomeString (runChatLoop envBadJson 5 0 []).1 =
        "T" ++ "\n\n[Error parsing tool call: " ++ "boom" ++ "]" :=
  ollama_malformed_toolcall envBadJson 5 0 [] "P" "boom" (by omega) rfl rfl

/-! ## Anthropic chat app (`chat_app.py`, `MCPChatApp`) -/

/-- One content block of an Anthropic response (`response.content`):
either a text block or a `tool_use` block carrying the correlation id,
the tool name, and the input (a JSON object, kept opaque). -/
inductive Block
  | text (s : String)
  | toolUse (id name input : String)
  deriving Repr, DecidableEq

/-- One entry of the `tool_results` list the app builds: the Python dict
`{"type": "tool_result", "tool_use_id": ..., "content": str(result)}`. -/
structure ToolResultMsg where
  tool_use_id : String
  content : String
  deriving Repr, DecidableEq

/-- A message of the app's `self.messages` history. `assistant` holds the
raw `response.content`; `userToolResults` is the user-role message whose
content is the `tool_results` list. -/
inductive CMessage
  | user (content : String)
  | assistant (content : List Block)
  | userToolResults (results : List ToolResultMsg)
  deriving Repr, DecidableEq

/-- A Python dict holding a JSON-Schema object, as used in
`Tool.inputSchema` of the MCP SDK (`inputSchema: dict[str, Any]`).
`properties` maps parameter names to their (opaque) schemas and `required`
is the required-list; `.get` with a `{}`/`[]` default means an absent key
is identified with the empty value. -/
structure SchemaDict where
  properties : List (String × String)
  required : List String
  deriving Repr, DecidableEq

/-- An MCP `types.Tool` as the demos consume it: `name`, optional
`description`, and the `inputSchema` dict (`none` for a Python-falsy
schema, i.e. `None` or `{}`). -/
structure MCPTool where
  name : String
  description : Option String
  inputSchema : Option SchemaDict
  deriving Repr, DecidableEq

/-- A Claude-format tool declaration as built by
`MCPChatApp._convert_mcp_to_claude_tool`: the `input_schema` of the
no-schema branch has no `required` key, hence `requiredOpt`. -/
structure ClaudeTool where
  name : String
  description : String
  properties : List (String × String)
  requiredOpt : Option (List String)
  deriving Repr, DecidableEq

/-- `MCPChatApp._convert_mcp_to_claude_tool`: the description falls back
to `f"Execute {name}"` when `mcp_tool.description` is falsy (Python `or`
treats both `None` and `""` as falsy); `properties` and `required` are
read from the schema dict with `{}`/`[]` defaults when the schema is
truthy, and the `required` key is omitted entirely otherwise. -/
def convert_mcp_to_claude_tool (t : MCPTool) : ClaudeTool :=
  let desc := match t.description with
    | some d => if d = "" then "Execute " ++ t.name else d
    | none => "Execute " ++ t.name
  match t.inputSchema with
  | some s => { name := t.name, description := desc, properties := s.properties, requiredOpt := some s.required }
  | none => { name := t.name, description := desc, properties := [], requiredOpt := none }

/-- The external collaborators of `MCPChatApp.get_claude_response`.

* `create ms ts` — the Anthropic backend: `messages.create` with history
  `ms` and tool declarations `ts` (`none` when the `tools` parameter is
  omitted or `None`), returning `response.content`.
* `registry n a` — `MCPClient.call_tool(n, a)` as consumed by
  `execute_mcp_tool`: `Except.error` is a raised exception, `Except.ok`
  is the list of text renderings of the items of `result.content` (for
  MCP results `result` is a truthy object and `result.content` a list, so
  the `str(result.content)` and no-output branches of the source are
  unreachable). -/
structure ClaudeEnv where
  create : List CMessage → Option (List ClaudeTool) → List Block
  registry : String → String → Except String (List String)

/-- `MCPChatApp.execute_mcp_tool`: a raised exception is caught and turned
into the string `"Error executing tool: ..."`; a normal result has its
content items joined with newlines. This function is total — a tool
failure never escapes it. -/
def execute_mcp_tool (registry : String → String → Except String (List String))
    (name args : String) : String :=
  match registry name args with
  | .ok items => String.intercalate "\n" items
  | .error e => "Error executing tool: " ++ e

/-- The `tools=claude_tools if claude_tools else None` argument:
an empty catalog is passed as `None`. -/
def toolsArgOf (tools : List ClaudeTool) : Option (List ClaudeTool) :=
  if tools.isEmpty then none else some tools

/-- The `tool_use_blocks` filter of the source:
`[block for block in response.content if block.type == "tool_use"]`,
as (id, name, input) triples. -/
def toolUseBlocks (content : List Block) : List (String × String × String) :=
  content.filterMap fun b => match b with
    | .toolUse i n inp => some (i, n, inp)
    | _ => none

/-- Text extraction of the source:
`"\n".join(block.text for block in content if hasattr(block, "text"))`,
returning `None` when there is no text block. -/
def joinTextBlocks (content : List Block) : Option String :=
  let texts := content.filterMap fun b => match b with
    | .text s => some s
    | _ => none
  if texts.isEmpty then none else some (String.intercalate "\n" texts)

/-- The `tool_results` list built by the dispatch loop of
`get_claude_response`: one entry per requested invocation, in request
order, carrying the request's correlation id and the (possibly
error-marked) result string. -/
def mkToolResults (registry : String → String → Except String (List String))
    (tus : List (String × String × String)) : List ToolResultMsg :=
  tus.map fun x => { tool_use_id := x.1, content := execute_mcp_tool registry x.2.1 x.2.2 }

/-- Observable outcome of one `get_claude_response` call: the returned
answer, the final `self.messages`, the log of Model Backend calls (each
with the history and tool declarations it was given), and the tool
invocations dispatched, in order. -/
structure ClaudeRunResult where
  answer : Option String
  messages : List CMessage
  calls : List (List CMessage × Option (List ClaudeTool))
  dispatched : List (String × String)

/-- `MCPChatApp.get_claude_response`: one Anthropic call with the tool
declarations; if the response has `tool_use` blocks, each is dispatched
through `execute_mcp_tool`, the results are appended as a user message,
and a second Anthropic call without a `tools` argument yields the final
answer; otherwise the first response's text is the answer. -/
def getClaudeResponse (env : ClaudeEnv) (claudeTools : List ClaudeTool)
    (messages : List CMessage) : ClaudeRunResult :=
  let toolsArg := toolsArgOf claudeTools
  let content := env.create messages toolsArg
  let messages1 := messages ++ [CMessage.assistant content]
  let tus := toolUseBlocks content
  if tus.isEmpty then
    { answer := joinTextBlocks content, messages := messages1,
      calls := [(messages, toolsArg)], dispatched := [] }
  else
    let results := mkToolResults env.registry tus
    let messages2 := messages1 ++ [CMessage.userToolResults results]
    let content2 := env.create messages2 none
    let messages3 := messages2 ++ [CMessage.assistant content2]
    { answer := joinTextBlocks content2, messages := messages3,
      calls := [(messages, toolsArg), (messages2, none)],
      dispatched := tus.map fun x => (x.2.1, x.2.2) }

/-- The branches of `MCPChatApp.handle_command` that touch exit status or
`self.messages`; `cmd` is the first whitespace token of the input,
lowercased, as computed by the source. Only `/clear` modifies the
history, and it sets it to the empty list. -/
def handle_command (cmd : String) (messages : List CMessage) : Bool × List CMessage :=
  if cmd = "/exit" ∨ cmd = "/quit" then (false, messages)
  else if cmd = "/clear" then (true, [])
  else (true, messages)

/-- The messages `get_claude_response` appends during one call, in order:
the raw assistant response, then (in the tool case) the tool results and
the final assistant response. -/
def claudeExchange (env : ClaudeEnv) (claudeTools : List ClaudeTool)
    (messages : List CMessage) : List CMessage :=
  let toolsArg := toolsArgOf claudeTools
  let content := env.create messages toolsArg
  let tus := toolUseBlocks content
  if tus.isEmpty then
    [CMessage.assistant content]
  else
    let results := mkToolResults env.registry tus
    [CMessage.assistant content, CMessage.userToolResults results,
      CMessage.assistant (env.create (messages ++ [CMessage.assistant content, CMessage.userToolResults results]) none)]

theorem getClaudeResponse_messages (env : ClaudeEnv) (claudeTools : List ClaudeTool)
    (messages : List CMessage) :
    (getClaudeResponse env claudeTools messages).messages =
      messages ++ claudeExchange env claudeTools messages := by
  simp only [getClaudeResponse, claudeExchange]
  split <;> simp

/-- C3: in every `get_claude_response` execution whose first response
requests tools, the assistant-tool-request message is followed, before
the second (and only other) Model Backend call, by exactly one
tool-result entry per requested invocation, in request order, each
carrying the correlation id (`tool_use_id`) of the request it answers:
the second call's input history ends with the assistant message and one
`tool_results` user message whose entries map one-to-one onto the
requested invocations. -/
theorem claude_result_correlation (env : ClaudeEnv) (tools : List ClaudeTool)
    (messages : List CMessage)
    (h : toolUseBlocks (env.create messages (toolsArgOf tools)) ≠ []) :
    (getClaudeResponse env tools messages).calls =
      [(messages, toolsArgOf tools),
        (messages ++ [CMessage.assistant (env.create messages (toolsArgOf tools)),
          CMessage.userToolResults (mkToolResults env.registry
            (toolUseBlocks (env.create messages (toolsArgOf tools))))], none)] ∧
      (mkToolResults env.registry (toolUseBlocks (env.create messages (toolsArgOf tools)))).length =
        (toolUseBlocks (env.create messages (toolsArgOf tools))).length ∧
      (mkToolResults env.registry (toolUseBlocks (env.create messages (toolsArgOf tools)))).map
          ToolResultMsg.tool_use_id =
        (toolUseBlocks (env.create messages (toolsArgOf tools))).map (fun x => x.1) := by
  refine ⟨?_, ?_, ?_⟩
  · simp [getClaudeResponse, h]
  · simp [mkToolResults]
  · simp [mkToolResults]

/-- A backend that requests one tool on the first call and answers with
text afterwards, with a registry that succeeds; used as concrete input
for the correlation witness. -/
def envCorr : ClaudeEnv :=
  { create := fun ms _ => if ms.length ≤ 1 then [.toolUse "id1" "read_doc" "arg"] else [.text "done"]
    registry := fun _ _ => .ok ["hello"] }

/-- A sample converted tool declaration. -/
def toolDeclR : ClaudeTool :=
  { name := "read_doc", description := "Read a document", properties := [("filename", "string")],
    requiredOpt := some ["filename"] }

theorem claude_result_correlation_witness :
    toolUseBlocks (envCorr.create [CMessage.user "q"] (toolsArgOf [toolDeclR])) ≠ [] ∧
      ((getClaudeResponse envCorr [toolDeclR] [CMessage.user "q"]).calls =
        [([CMessage.user "q"], toolsArgOf [toolDeclR]),
          ([CMessage.user "q"] ++ [CMessage.assistant (envCorr.create [CMessage.user "q"] (toolsArgOf [toolDeclR])),
            CMessage.userToolResults (mkToolResults envCorr.registry
              (toolUseBlocks (envCorr.create [CMessage.user "q"] (toolsArgOf [toolDeclR]))))], none)] ∧
        (mkToolResults envCorr.registry
            (toolUseBlocks (envCorr.create [CMessage.user "q"] (toolsArgOf [toolDeclR])))).length =
          (toolUseBlocks (envCorr.create [CMessage.user "q"] (toolsArgOf [toolDeclR]))).length ∧
        (mkToolResults envCorr.registry
            (toolUseBlocks (envCorr.create [CMessage.user "q"] (toolsArgOf [toolDeclR])))).map
            ToolResultMsg.tool_use_id =
          (toolUseBlocks (envCorr.create [CMessage.user "q"] (toolsArgOf [toolDeclR]))).map
            (fun x => x.1)) :=
  ⟨by decide, claude_result_correlation envCorr [toolDeclR] [CMessage.user "q"] (by decide)⟩

/-- C4: in every `get_claude_response` execution whose first response
requests `k ≥ 1` invocations, all `k` are dispatched, in order (a failure
of one does not abort its siblings), and the history receives exactly `k`
tool-result entries before the next Model Backend call, the failed ones
carrying the `"Error executing tool: ..."` marker; `execute_mcp_tool`
itself is total, so a tool failure never raises out of the loop. -/
theorem claude_error_isolation (env : ClaudeEnv) (tools : List ClaudeTool)
    (messages : List CMessage)
    (h : toolUseBlocks (env.create messages (toolsArgOf tools)) ≠ []) :
    (getClaudeResponse env tools messages).dispatched =
      (toolUseBlocks (env.create messages (toolsArgOf tools))).map (fun x => (x.2.1, x.2.2)) ∧
      mkToolResults env.registry (toolUseBlocks (env.create messages (toolsArgOf tools))) =
        (toolUseBlocks (env.create messages (toolsArgOf tools))).map (fun x =>
          { tool_use_id := x.1
            content := match env.registry x.2.1 x.2.2 with
              | .ok items => String.intercalate "\n" items
              | .error e => "Error executing tool: " ++ e }) ∧
      (getClaudeResponse env tools messages).messages =
        messages ++ [CMessage.assistant (env.create messages (toolsArgOf tools)),
          CMessage.userToolResults (mkToolResults env.registry
            (toolUseBlocks (env.create messages (toolsArgOf tools)))),
          CMessage.assistant (env.create (messages ++
            [CMessage.assistant (env.create messages (toolsArgOf tools)),
              CMessage.userToolResults (mkToolResults env.registry
                (toolUseBlocks (env.create messages (toolsArgOf tools))))]) none)] := by
  refine ⟨?_, ?_, ?_⟩
  · simp [getClaudeResponse, h]
  · simp [mkToolResults, execute_mcp_tool]
  · simp [getClaudeResponse, h]

/-- A first response requesting three tools with a registry that raises
on the second one; used as concrete input for the error-isolation
witness. -/
def envIso : ClaudeEnv :=
  { create := fun ms _ =>
      if ms.length ≤ 1 then
        [.toolUse "i1" "t1" "a1", .toolUse "i2" "t2" "a2", .toolUse "i3" "t3" "a3"]
      else [.text "done"]
    registry := fun n _ => if n = "t2" then .error "boom" else .ok ["ok"] }

theorem claude_error_isolation_witness :
    toolUseBlocks (envIso.create [CMessage.user "q"] (toolsArgOf [toolDeclR])) ≠ [] ∧
      (getClaudeResponse envIso [toolDeclR] [CMessage.user "q"]).dispatched =
        [("t1", "a1"), ("t2", "a2"), ("t3", "a3")] ∧
      mkToolResults envIso.registry
          (toolUseBlocks (envIso.create [CMessage.user "q"] (toolsArgOf [toolDeclR]))) =
        [{ tool_use_id := "i1", content := "ok" },
          { tool_use_id := "i2", content := "Error executing tool: boom" },
          { tool_use_id := "i3", content := "ok" }] := by
  have h := claude_error_isolation envIso [toolDeclR] [CMessage.user "q"] (by decide)
  refine ⟨by decide, ?_, ?_⟩
  · rw [h.1]; decide
  · rw [h.2.1]; decide

/-- Amended C5: in the Anthropic chat app, the retained history after a
`get_claude_response` call contains every message exchanged during the
run, in order — the user-visible history is extended by exactly the raw
assistant tool-request message, the tool-result message, and the final
assistant message (in the tool case).  (In the OpenAI CLI client this
fails: `chat_with_tools` mutates only a copy of the history and never
appends the final assistant message, so the caller retains only the user
message and the final answer; see the counterexample.) -/
theorem claude_history_retention (env : ClaudeEnv) (tools : List ClaudeTool)
    (messages : List CMessage)
    (h : toolUseBlocks (env.create messages (toolsArgOf tools)) ≠ []) :
    (getClaudeResponse env tools messages).messages =
      messages ++ [CMessage.assistant (env.create messages (toolsArgOf tools)),
        CMessage.userToolResults (mkToolResults env.registry
          (toolUseBlocks (env.create messages (toolsArgOf tools)))),
        CMessage.assistant (env.create (messages ++
          [CMessage.assistant (env.create messages (toolsArgOf tools)),
            CMessage.userToolResults (mkToolResults env.registry
              (toolUseBlocks (env.create messages (toolsArgOf tools))))]) none)] := by
  simp [getClaudeResponse, h]

theorem claude_history_retention_witness :
    toolUseBlocks (envCorr.create [] (toolsArgOf [toolDeclR])) ≠ [] ∧
      (getClaudeResponse envCorr [toolDeclR] []).messages =
        [] ++ [CMessage.assistant (envCorr.create [] (toolsArgOf [toolDeclR])),
          CMessage.userToolResults (mkToolResults envCorr.registry
            (toolUseBlocks (envCorr.create [] (toolsArgOf [toolDeclR])))),
          CMessage.assistant (envCorr.create ([] ++
            [CMessage.assistant (envCorr.create [] (toolsArgOf [toolDeclR])),
              CMessage.userToolResults (mkToolResults envCorr.registry
                (toolUseBlocks (envCorr.create [] (toolsArgOf [toolDeclR]))))]) none)] :=
  ⟨by decide, claude_history_retention envCorr [toolDeclR] [] (by decide)⟩

/-- C8: across one `get_claude_response` call the history is append-only —
the prior history is a prefix of the result, so its length never
decreases and no prior message is mutated or removed; and of the chat
commands only the explicit `/clear` replaces the history (with the empty
list), every other command leaves it untouched. -/
theorem claude_history_append_only (env : ClaudeEnv) (tools : List ClaudeTool)
    (messages : List CMessage) (cmd : String) :
    (∃ suffix, (getClaudeResponse env tools messages).messages = messages ++ suffix) ∧
      (handle_command "/clear" messages).2 = [] ∧
      ((handle_command cmd messages).2 = messages ∨ (handle_command cmd messages).2 = []) := by
  refine ⟨⟨claudeExchange env tools messages, getClaudeResponse_messages env tools messages⟩, rfl, ?_⟩
  by_cases h1 : cmd = "/exit" ∨ cmd = "/quit"
  · left; simp [handle_command, h1]
  · by_cases h2 : cmd = "/clear"
    · right; simp [handle_command, h1, h2]
    · left; simp [handle_command, h1, h2]

/-- C9: a run with an empty ToolCatalog passes `tools=None` to the
backend; by the Model Backend contract a call made with no tool
declarations yields no tool requests (hypothesis `h`), so
`get_claude_response` performs exactly one Model Backend call — made with
no tool declarations — and returns that response's textual content
directly. -/
theorem claude_no_tools_passthrough (env : ClaudeEnv) (messages : List CMessage)
    (h : toolUseBlocks (env.create messages none) = []) :
    (getClaudeResponse env [] messages).calls = [(messages, none)] ∧
      (getClaudeResponse env [] messages).answer = joinTextBlocks (env.create messages none) ∧
      (getClaudeResponse env [] messages).messages =
        messages ++ [CMessage.assistant (env.create messages none)] := by
  have harg : toolsArgOf ([] : List ClaudeTool) = none := rfl
  refine ⟨?_, ?_, ?_⟩ <;> simp [getClaudeResponse, harg, h]

/-- A backend that always answers with plain text; used as concrete input
for the passthrough witness. -/
def envTextOnly : ClaudeEnv :=
  { create := fun _ _ => [.text "four"]
    registry := fun _ _ => .ok ["unused"] }

theorem claude_no_tools_passthrough_witness :
    toolUseBlocks (envTextOnly.create [CMessage.user "2+2?"] none) = [] ∧
      ((getClaudeResponse envTextOnly [] [CMessage.user "2+2?"]).calls =
        [([CMessage.user "2+2?"], none)] ∧
        (getClaudeResponse envTextOnly [] [CMessage.user "2+2?"]).answer =
          joinTextBlocks (envTextOnly.create [CMessage.user "2+2?"] none) ∧
        (getClaudeResponse envTextOnly [] [CMessage.user "2+2?"]).messages =
          [CMessage.user "2+2?"] ++ [CMessage.assistant (envTextOnly.create [CMessage.user "2+2?"] none)]) :=
  ⟨by decide, claude_no_tools_passthrough envTextOnly [CMessage.user "2+2?"] (by decide)⟩

/-! ## Tool-catalog translation for OpenAI
(`mcp_client_simple.py`, `get_available_tools_for_openai`) -/

/-- An OpenAI function-calling tool declaration as built by
`get_available_tools_for_openai` (the constant `{"type": "function"}`
wrapper and the `function` nesting are flattened to the four fields the
demos fill in). -/
structure OpenAITool where
  name : String
  description : Option String
  properties : List (String × String)
  required : List String
  deriving Repr, DecidableEq

/-- Python `hasattr` applied to the dict-typed `Tool.inputSchema` of the
MCP SDK (`inputSchema: dict[str, Any]`): dictionary entries are items,
not attributes, so `hasattr(tool.inputSchema, "properties")` and
`hasattr(tool.inputSchema, "required")` are False for every schema dict,
whatever keys it holds. -/
def dictHasattr (_d : SchemaDict) (_attr : String) : Bool := false

/-- The per-tool body of `SimpleMCPClient.get_available_tools_for_openai`:
the declaration starts with empty `properties`/`required`, and the schema
fields are copied only when the corresponding `hasattr` check on the
schema dict succeeds — which it never does. -/
def toOpenAITool (tool : MCPTool) : OpenAITool :=
  let base : OpenAITool :=
    { name := tool.name, description := tool.description, properties := [], required := [] }
  match tool.inputSchema with
  | none => base
  | some schema =>
    let props := if dictHasattr schema "properties" then schema.properties else base.properties
    let req := if dictHasattr schema "required" then schema.required else base.required
    { base with properties := props, required := req }

/-- `SimpleMCPClient.get_available_tools_for_openai`: one declaration per
catalog entry, by the loop-and-append of the source. -/
def get_available_tools_for_openai (tools : List MCPTool) : List OpenAITool :=
  tools.map toOpenAITool

/-- A concrete catalog entry whose schema declares one required
parameter. -/
def schemaReadFile : SchemaDict :=
  { properties := [("filename", "string")], required := ["filename"] }

/-- The catalog entry built over `schemaReadFile`. -/
def toolReadFile : MCPTool :=
  { name := "read_file", description := some "Read a file", inputSchema := some schemaReadFile }

/-- C6, evaluated at a failing input: the OpenAI translation emits a
declaration whose `properties` and `required` are empty even though the
descriptor's schema declares a required `filename` parameter — the
`hasattr` checks on a dict never fire — while the Claude-side translation
of the same descriptor passes both through structurally unchanged. -/
theorem openai_translation_drops_schema :
    get_available_tools_for_openai [toolReadFile] =
      [{ name := "read_file", description := some "Read a file",
         properties := [], required := [] }] ∧
      schemaReadFile.properties = [("filename", "string")] ∧
      schemaReadFile.required = ["filename"] ∧
      (convert_mcp_to_claude_tool toolReadFile).properties = [("filename", "string")] ∧
      (convert_mcp_to_claude_tool toolReadFile).requiredOpt = some ["filename"] := by
  decide

/-! ## OpenAI chat client (`mcp_client_simple.py`, `chat_with_tools`)
and its CLI caller (`chat_cli.py`, `ChatCLI.chat_loop`) -/

/-- One OpenAI tool call of a response:
`{id, type: "function", function: {name, arguments}}`, with `arguments`
the raw JSON string the model produced. -/
structure OToolCall where
  id : String
  name : String
  arguments : String
  deriving Repr, DecidableEq

/-- A message of the OpenAI-format history. `assistantToolCalls` is the
assistant dict with a `tool_calls` list; `tool` is a
`{"role": "tool", "tool_call_id": ..., "content": ...}` result message;
`assistantText` is a plain assistant message (its content may be `None`).
-/
inductive OMessage
  | user (content : String)
  | assistantText (content : Option String)
  | assistantToolCalls (content : Option String) (tool_calls : List OToolCall)
  | tool (tool_call_id : String) (content : String)
  deriving Repr, DecidableEq

/-- `response.choices[0].message`: optional text content plus a (possibly
empty, i.e. Python-falsy) list of tool calls. -/
structure OAIMessage where
  content : Option String
  tool_calls : List OToolCall
  deriving Repr, DecidableEq

/-- The external collaborators of `chat_with_tools`.

* `create ms ts` — `openai_client.chat.completions.create` with history
  `ms` and tool declarations `ts` (`none` when no `tools` argument is
  passed), returning the first choice's message.
* `jsonLoads s` — `json.loads` on a tool call's `arguments` string;
  `Except.error` is a raised `json.JSONDecodeError`, `Except.ok` the
  parsed arguments (kept opaque).
* `callTool n a` — `SimpleMCPClient.call_tool(n, a)`: `Except.error` is a
  raised (transport-level) exception; `Except.ok` is the returned string,
  which includes the `"Error: ..."` strings built for `isError` results.
-/
structure OpenAIEnv where
  create : List OMessage → Option (List OpenAITool) → OAIMessage
  jsonLoads : String → Except String String
  callTool : String → String → Except String String

/-- The `tools=tools if tools else None` argument of the OpenAI call. -/
def oToolsArgOf (tools : List OpenAITool) : Option (List OpenAITool) :=
  if tools.isEmpty then none else some tools

/-- The `for tool_call in message.tool_calls` dispatch loop of
`chat_with_tools`: parse the arguments, call the tool, append one
tool-result message per call. Neither `json.loads` nor `call_tool` is
guarded by a `try`, so a failure aborts the loop with that exception
(first component `some e`), losing the remaining calls. Also returns the
`(name, parsed args)` pairs actually dispatched, in order. -/
def runToolCalls (env : OpenAIEnv) :
    List OToolCall → List OMessage → List (String × String) →
      Option String × List OMessage × List (String × String)
  | [], msgs, disp => (none, msgs, disp)
  | tc :: rest, msgs, disp =>
    match env.jsonLoads tc.arguments with
    | .error e => (some e, msgs, disp)
    | .ok args =>
      match env.callTool tc.name args with
      | .error e => (some e, msgs, disp ++ [(tc.name, args)])
      | .ok r => runToolCalls env rest (msgs ++ [.tool tc.id r]) (disp ++ [(tc.name, args)])

/-- How one `chat_with_tools` call ends: with a returned answer
(`message.content`, possibly `None`), or with an uncaught exception. -/
inductive OChatOutcome
  | answered (content : Option String)
  | raised (err : String)
  deriving Repr, DecidableEq

/-- Observable outcome of one `chat_with_tools` call: the outcome, the
final state of the (mutated-in-place) `messages` list, the log of Model
Backend calls with the tool declarations each received, and the tool
invocations dispatched. -/
structure OChatResult where
  outcome : OChatOutcome
  messages : List OMessage
  calls : List (List OMessage × Option (List OpenAITool))
  dispatched : List (String × String)

/-- `SimpleMCPClient.chat_with_tools`: one OpenAI call with the tool
declarations; if the response has tool calls, the assistant message is
appended, each call is dispatched (appending one tool message per
success), and a second OpenAI call without a `tools` argument produces
the returned answer. Note that the final assistant answer is returned but
never appended to `messages`, and an exception in the dispatch loop
escapes the method. -/
def chat_with_tools (env : OpenAIEnv) (tools : List OpenAITool)
    (messages : List OMessage) : OChatResult :=
  let toolsArg := oToolsArgOf tools
  let resp := env.create messages toolsArg
  if resp.tool_calls.isEmpty then
    { outcome := .answered resp.content, messages := messages,
      calls := [(messages, toolsArg)], dispatched := [] }
  else
    let m1 := messages ++ [OMessage.assistantToolCalls resp.content resp.tool_calls]
    match runToolCalls env resp.tool_calls m1 [] with
    | (some e, m2, disp) =>
      { outcome := .raised e, messages := m2, calls := [(messages, toolsArg)], dispatched := disp }
    | (none, m2, disp) =>
      let resp2 := env.create m2 none
      { outcome := .answered resp2.content, messages := m2,
        calls := [(messages, toolsArg), (m2, none)], dispatched := disp }

/-- One iteration of `ChatCLI.chat_loop` on a free-text query: the user
message is appended to `self.messages`, `chat_with_tools` runs on a copy
(`self.messages.copy()`) — so messages appended during the run mutate the
copy only — and the returned answer is appended as a plain assistant
message. If `chat_with_tools` raises, the loop's handlers (EOFError and
KeyboardInterrupt only) do not catch it, and the retained history keeps
just the user message. Returns the retained `self.messages` and the
run's result. -/
def chatCliIteration (env : OpenAIEnv) (tools : List OpenAITool)
    (selfMessages : List OMessage) (userInput : String) :
    List OMessage × OChatResult :=
  let m1 := selfMessages ++ [OMessage.user userInput]
  let r := chat_with_tools env tools m1
  match r.outcome with
  | .answered a => (m1 ++ [OMessage.assistantText a], r)
  | .raised _ => (m1, r)

/-- A sample OpenAI-format tool declaration. -/
def toolDeclO : OpenAITool :=
  { name := "read_doc", description := some "Read a document", properties := [], required := [] }

/-- A backend that requests one tool when declarations are passed and
answers `"final"` on the follow-up call, with arguments that parse and a
tool that succeeds; used for the history-loss counterexample. -/
def envCliHistory : OpenAIEnv :=
  { create := fun _ ts => match ts with
      | some _ => { content := none, tool_calls := [{ id := "c1", name := "read_doc", arguments := "args" }] }
      | none => { content := some "final", tool_calls := [] }
    jsonLoads := fun s => .ok s
    callTool := fun _ _ => .ok "hello" }

/-- C5 counterexample: in the OpenAI CLI client a completed run that
dispatched a tool retains only the user message and the final answer —
the history handed back for the next turn contains neither the
assistant-tool-request nor the tool-result message that were exchanged
(those were appended to the discarded copy, whose final state is also
missing the final assistant answer). -/
theorem chat_cli_history_loss :
    (chatCliIteration envCliHistory [toolDeclO] [] "q").1 =
      [OMessage.user "q", OMessage.assistantText (some "final")] ∧
      (chatCliIteration envCliHistory [toolDeclO] [] "q").2.dispatched = [("read_doc", "args")] ∧
      (chatCliIteration envCliHistory [toolDeclO] [] "q").2.messages =
        [OMessage.user "q",
          OMessage.assistantToolCalls none [{ id := "c1", name := "read_doc", arguments := "args" }],
          OMessage.tool "c1" "hello"] := by
  decide

/-- A backend whose tool call carries arguments on which `json.loads`
raises; used for the malformed-tool-call counterexample. -/
def envCliBadArgs : OpenAIEnv :=
  { create := fun _ ts => match ts with
      | some _ => { content := none, tool_calls := [{ id := "c1", name := "read_doc", arguments := "notjson" }] }
      | none => { content := some "unreached", tool_calls := [] }
    jsonLoads := fun _ => .error "boom"
    callTool := fun _ _ => .ok "hello" }

/-- C7 counterexample: in `chat_with_tools` a model response whose
tool-call arguments do not parse as JSON makes `json.loads` raise out of
the dispatch loop — the run ends in the raised state after a single Model
Backend call, no error ToolResult is appended to the history, and nothing
is fed back to the model. -/
theorem openai_malformed_args_raises :
    (chat_with_tools envCliBadArgs [toolDeclO] [OMessage.user "q"]).outcome = .raised "boom" ∧
      (chat_with_tools envCliBadArgs [toolDeclO] [OMessage.user "q"]).calls =
        [([OMessage.user "q"], some [toolDeclO])] ∧
      (chat_with_tools envCliBadArgs [toolDeclO] [OMessage.user "q"]).messages =
        [OMessage.user "q",
          OMessage.assistantToolCalls none [{ id := "c1", name := "read_doc", arguments := "notjson" }]] := by
  decide

/-- C10: in both single-query response operations, if the first response
requests tools (and, for the OpenAI client, the dispatch loop completes
without an exception), exactly two Model Backend calls are made, the
second one carries no tool declarations, and the returned answer is the
second response's textual content — computed regardless of whether that
response would request further tools. -/
theorem single_query_two_call_bound
    (envC : ClaudeEnv) (toolsC : List ClaudeTool) (msC : List CMessage)
    (envO : OpenAIEnv) (toolsO : List OpenAITool) (msO : List OMessage)
    (hC : toolUseBlocks (envC.create msC (toolsArgOf toolsC)) ≠ [])
    (hO : (envO.create msO (oToolsArgOf toolsO)).tool_calls ≠ [])
    (hOk : (runToolCalls envO (envO.create msO (oToolsArgOf toolsO)).tool_calls
        (msO ++ [OMessage.assistantToolCalls (envO.create msO (oToolsArgOf toolsO)).content
          (envO.create msO (oToolsArgOf toolsO)).tool_calls]) []).1 = none) :
    (getClaudeResponse envC toolsC msC).calls.map Prod.snd = [toolsArgOf toolsC, none] ∧
      (getClaudeResponse envC toolsC msC).answer =
        joinTextBlocks (envC.create (msC ++
          [CMessage.assistant (envC.create msC (toolsArgOf toolsC)),
            CMessage.userToolResults (mkToolResults envC.registry
              (toolUseBlocks (envC.create msC (toolsArgOf toolsC))))]) none) ∧
      (chat_with_tools envO toolsO msO).calls.map Prod.snd = [oToolsArgOf toolsO, none] ∧
      (chat_with_tools envO toolsO msO).outcome =
        .answered ((envO.create ((runToolCalls envO (envO.create msO (oToolsArgOf toolsO)).tool_calls
          (msO ++ [OMessage.assistantToolCalls (envO.create msO (oToolsArgOf toolsO)).content
            (envO.create msO (oToolsArgOf toolsO)).tool_calls]) []).2.1) none).content) := by
  refine ⟨?_, ?_, ?_, ?_⟩
  · simp [getClaudeResponse, hC]
  · simp [getClaudeResponse, hC]
  · rcases hrt : runToolCalls envO (envO.create msO (oToolsArgOf toolsO)).tool_calls
        (msO ++ [OMessage.assistantToolCalls (envO.create msO (oToolsArgOf toolsO)).content
          (envO.create msO (oToolsArgOf toolsO)).tool_calls]) [] with ⟨o, m2, disp⟩
    rw [hrt] at hOk
    simp only at hOk
    subst hOk
    simp [chat_with_tools, hO, hrt]
  · rcases hrt : runToolCalls envO (envO.create msO (oToolsArgOf toolsO)).tool_calls
        (msO ++ [OMessage.assistantToolCalls (envO.create msO (oToolsArgOf toolsO)).content
          (envO.create msO (oToolsArgOf toolsO)).tool_calls]) [] with ⟨o, m2, disp⟩
    rw [hrt] at hOk
    simp only at hOk
    subst hOk
    simp [chat_with_tools, hO, hrt]

/-- A Claude backend that requests a tool on the declared-tools call and,
on the follow-up call, returns a response that requests another tool next
to its text; used to witness the two-call bound (including the
"regardless of further tool requests" clause). -/
def envTwoCallC : ClaudeEnv :=
  { create := fun _ ts => match ts with
      | some _ => [.toolUse "i1" "t1" "a1"]
      | none => [.toolUse "i2" "t2" "a2", .text "second"]
    registry := fun _ _ => .ok ["r"] }

/-- The OpenAI analogue of `envTwoCallC`: the follow-up response also
carries a tool call next to its content. -/
def envTwoCallO : OpenAIEnv :=
  { create := fun _ ts => match ts with
      | some _ => { content := none, tool_calls := [{ id := "c1", name := "t1", arguments := "a1" }] }
      | none => { content := some "secondO", tool_calls := [{ id := "c2", name := "t2", arguments := "a2" }] }
    jsonLoads := fun s => .ok s
    callTool := fun _ _ => .ok "res" }

theorem single_query_two_call_bound_witness :
    toolUseBlocks (envTwoCallC.create [CMessage.user "q"] (toolsArgOf [toolDeclR])) ≠ [] ∧
      (envTwoCallO.create [OMessage.user "q"] (oToolsArgOf [toolDeclO])).tool_calls ≠ [] ∧
      (runToolCalls envTwoCallO (envTwoCallO.create [OMessage.user "q"] (oToolsArgOf [toolDeclO])).tool_calls
        ([OMessage.user "q"] ++ [OMessage.assistantToolCalls
          (envTwoCallO.create [OMessage.user "q"] (oToolsArgOf [toolDeclO])).content
          (envTwoCallO.create [OMessage.user "q"] (oToolsArgOf [toolDeclO])).tool_calls]) []).1 = none ∧
      ((getClaudeResponse envTwoCallC [toolDeclR] [CMessage.user "q"]).calls.map Prod.snd =
        [toolsArgOf [toolDeclR], none] ∧
        (getClaudeResponse envTwoCallC [toolDeclR] [CMessage.user "q"]).answer =
          joinTextBlocks (envTwoCallC.create ([CMessage.user "q"] ++
            [CMessage.assistant (envTwoCallC.create [CMessage.user "q"] (toolsArgOf [toolDeclR])),
              CMessage.userToolResults (mkToolResults envTwoCallC.registry
                (toolUseBlocks (envTwoCallC.create [CMessage.user "q"] (toolsArgOf [toolDeclR]))))]) none) ∧
        (chat_with_tools envTwoCallO [toolDeclO] [OMessage.user "q"]).calls.map Prod.snd =
          [oToolsArgOf [toolDeclO], none] ∧
        (chat_with_tools envTwoCallO [toolDeclO] [OMessage.user "q"]).outcome =
          .answered ((envTwoCallO.create ((runToolCalls envTwoCallO
            (envTwoCallO.create [OMessage.user "q"] (oToolsArgOf [toolDeclO])).tool_calls
            ([OMessage.user "q"] ++ [OMessage.assistantToolCalls
              (envTwoCallO.create [OMessage.user "q"] (oToolsArgOf [toolDeclO])).content
              (envTwoCallO.create [OMessage.user "q"] (oToolsArgOf [toolDeclO])).tool_calls]) []).2.1) none).content)) :=
  ⟨by decide, by decide, by decide,
    single_query_two_call_bound envTwoCallC [toolDeclR] [CMessage.user "q"]
      envTwoCallO [toolDeclO] [OMessage.user "q"] (by decide) (by decide) (by decide)⟩

end MCPCourse
